import Mathlib

/-!
Verification of `src/ticketmaster_anaylsis/ticketmaster_anaylsis.py`.

The module is a client over an HTTP JSON API. We embed it shallowly:

* JSON values (as Python's `json` module materialises them) are the
  inductive `Json`; Python's dictionary/list/string operations on them are
  partial functions into `Except PyErr`, so that a raised Python exception
  is an `Except.error`.
* The network is abstracted as a response environment
  `env : Nat → HttpAttempt`: `env i` is what the `i`-th call to
  `requests.get` produces — either a reply with a status code and a JSON
  body, or a transport-level exception (`requests.exceptions.RequestException`
  that is not an `HTTPError`, e.g. `ConnectionError`).  The URL built from
  the arguments is dropped: no code in the module inspects it after the
  request, so the environment subsumes it.
* `pandas.DataFrame` built from a list of records is modelled as the list
  of the records themselves (`List AttrRow` etc.); the empty DataFrame is
  `[]`.
* `time.sleep` and the backoff delays are dropped: no observable value of
  the module depends on them, only real time does.
-/

namespace TM

/-- A JSON value as Python's `json.loads` materialises it (`null` is Python
`None`, which is also what `dict.get` returns for a missing key, so the two
are identified).  Numbers are modelled as rationals: the claims under proof
involve only integer-valued prices and exact halving, where Python's
int/float arithmetic agrees with `ℚ`. -/
inductive Json where
  | null : Json
  | bool (b : Bool) : Json
  | num (q : ℚ) : Json
  | str (s : String) : Json
  | arr (elems : List Json) : Json
  | obj (fields : List (String × Json)) : Json
deriving Repr

/-- A raised Python exception, as far as the module distinguishes them. -/
inductive PyErr where
  /-- `KeyError`, from `d[k]` on a dict without the key. -/
  | keyError (k : String) : PyErr
  /-- `TypeError` (unsupported operand / not iterable / bad subscript). -/
  | typeError (msg : String) : PyErr
  /-- `IndexError`, from `l[i]` past the end of a list. -/
  | indexError : PyErr
  /-- `AttributeError`, e.g. `.get` or `.lower` on a value without it. -/
  | attributeError (msg : String) : PyErr
  /-- `ValueError`, raised explicitly by `find_attraction_info`. -/
  | valueError (msg : String) : PyErr
  /-- `requests.HTTPError` raised by `Response.raise_for_status`. -/
  | httpError (status : Nat) : PyErr
  /-- A `requests.exceptions.RequestException` that is not an `HTTPError`
  (transport failure such as `ConnectionError`). -/
  | requestError (msg : String) : PyErr
deriving Repr, DecidableEq

/-- Whether the exception is the `requests.HTTPError` kind (what
`except requests.HTTPError` catches). -/
def PyErr.isHttp : PyErr → Bool
  | .httpError _ => true
  | _ => false

/-- `str(e)` of an exception, as interpolated into the module's f-string
error messages.  The exact texts of library exceptions are outside the
repository; what matters to every claim is only that the interpolation is a
fixed function of the exception. -/
def PyErr.text : PyErr → String
  | .keyError k => "'" ++ k ++ "'"
  | .typeError m => m
  | .indexError => "list index out of range"
  | .attributeError m => m
  | .valueError m => m
  | .httpError st => toString st ++ " Error for url"
  | .requestError m => m

/-- What one call to `requests.get` produces. -/
inductive HttpAttempt where
  /-- The server replied with this status code and JSON body. -/
  | success (status : Nat) (body : Json) : HttpAttempt
  /-- The transport raised (a non-`HTTPError` `RequestException`). -/
  | failure (msg : String) : HttpAttempt

/-- `Response.raise_for_status` raises `HTTPError` exactly for 4xx and 5xx
status codes. -/
def isErrorStatus (status : Nat) : Bool :=
  400 ≤ status && status < 600

/-- `requests.Response.__bool__` is `Response.ok`: `True` iff
`raise_for_status` would not raise.  (This is what Python evaluates for the
`if response` test in `fetch_filtered_events`.) -/
def responseTruthy (status : Nat) : Bool :=
  !isErrorStatus status

/-- The message of the `HTTPError` that `raise_for_status` raises.  The real
text («429 Client Error: … for url: …») is produced by the HTTP library,
outside this repository; the module only ever interpolates it, so it is
modelled as a fixed function of the status code. -/
def httpErrorText (status : Nat) : String :=
  toString status ++ " Error for url"

/-! ### Python operations on JSON values -/

/-- Lookup in the association list behind a JSON object.  `json.loads`
produces dicts, whose keys are unique, so first match is the dict lookup. -/
def jLookup (fields : List (String × Json)) (k : String) : Option Json :=
  (fields.find? fun e => e.1 == k).map (·.2)

/-- Python `d.get(k, dflt)`: total on dicts, `AttributeError` otherwise. -/
def pyGet (j : Json) (k : String) (dflt : Json) : Except PyErr Json :=
  match j with
  | .obj fields => .ok ((jLookup fields k).getD dflt)
  | _ => .error (.attributeError "object has no attribute 'get'")

/-- Python `d[k]` with a string subscript: a dict lookup (`KeyError` when
missing), `TypeError` on every other JSON value (list indices must be
integers, string indices must be integers, …). -/
def pySubscript (j : Json) (k : String) : Except PyErr Json :=
  match j with
  | .obj fields =>
    match jLookup fields k with
    | some v => .ok v
    | none => .error (.keyError k)
  | .arr _ => .error (.typeError "list indices must be integers")
  | .str _ => .error (.typeError "string indices must be integers")
  | _ => .error (.typeError "object is not subscriptable")

/-- Python `x[i]` with a non-negative integer subscript, as the module uses
it (`…[0]`): a list gives its element or `IndexError`; a string gives a
one-character string or `IndexError`; a dict raises `KeyError` (its keys
here are strings, never the integer); anything else `TypeError`. -/
def pyItemAt (j : Json) (i : Nat) : Except PyErr Json :=
  match j with
  | .arr elems =>
    match elems.get? i with
    | some v => .ok v
    | none => .error .indexError
  | .str s =>
    match s.toList.get? i with
    | some c => .ok (.str (String.singleton c))
    | none => .error .indexError
  | .obj _ => .error (.keyError (toString i))
  | _ => .error (.typeError "object is not subscriptable")

/-- Substring test on character lists (`needle` occurs in `hay`), written
structurally so the kernel can evaluate it. -/
def containsSub (hay needle : List Char) : Bool :=
  match hay with
  | [] => needle.isEmpty
  | _ :: rest => needle.isPrefixOf hay || containsSub rest needle

/-- Python `k in j` for a string `k`: key test on a dict, membership on a
list (string-equality against the elements), substring test on a string,
`TypeError` on the rest. -/
def pyContains (k : String) (j : Json) : Except PyErr Bool :=
  match j with
  | .obj fields => .ok (jLookup fields k).isSome
  | .arr elems => .ok (elems.any fun e => match e with | .str s => s == k | _ => false)
  | .str s => .ok (containsSub s.data k.data)
  | _ => .error (.typeError "argument is not iterable")

/-- Python iteration `for x in j`: the elements of a list, the keys of a
dict, the one-character strings of a string, `TypeError` on the rest. -/
def pyIter (j : Json) : Except PyErr (List Json) :=
  match j with
  | .arr elems => .ok elems
  | .obj fields => .ok (fields.map fun e => .str e.1)
  | .str s => .ok (s.toList.map fun c => .str (String.singleton c))
  | _ => .error (.typeError "object is not iterable")

/-- Python truthiness of a JSON value (`if x`, `x and y`). -/
def pyTruthy : Json → Bool
  | .null => false
  | .bool b => b
  | .num q => q ≠ 0
  | .str s => s ≠ ""
  | .arr elems => !elems.isEmpty
  | .obj fields => !fields.isEmpty

/-- Python `str.lower()`, written on the character list so the kernel can
evaluate it.  `Char.toLower` covers ASCII, which is all the tokenisation
claims exercise. -/
def lowerStr (s : String) : String :=
  ⟨s.data.map Char.toLower⟩

/-- Python `x.lower()`: defined on strings only. -/
def pyLower (j : Json) : Except PyErr String :=
  match j with
  | .str s => .ok (lowerStr s)
  | _ => .error (.attributeError "object has no attribute 'lower'")

/-- One pass of Python `s.split()`: `cur` holds the current word reversed;
words are emitted at whitespace boundaries, empty pieces never appear. -/
def splitWsAux : List Char → List Char → List String
  | [], cur => if cur.isEmpty then [] else [⟨cur.reverse⟩]
  | c :: cs, cur =>
    if c.isWhitespace then
      if cur.isEmpty then splitWsAux cs []
      else String.mk cur.reverse :: splitWsAux cs []
    else splitWsAux cs (c :: cur)

/-- Python `s.split()` with no argument: split on runs of whitespace,
discarding empty pieces. -/
def pySplitWs (s : String) : List String :=
  splitWsAux s.data []

/-- The numeric value of a JSON value under Python arithmetic, when it has
one (`bool` is an `int` subclass in Python). -/
def pyToNum : Json → Option ℚ
  | .num q => some q
  | .bool b => some (if b then 1 else 0)
  | _ => none

/-- Python `x + y` on the values the module can feed it: numbers add,
strings and lists concatenate, everything else is a `TypeError`. -/
def pyAdd (x y : Json) : Except PyErr Json :=
  match pyToNum x, pyToNum y with
  | some a, some b => .ok (.num (a + b))
  | _, _ =>
    match x, y with
    | .str a, .str b => .ok (.str (a ++ b))
    | .arr a, .arr b => .ok (.arr (a ++ b))
    | _, _ => .error (.typeError "unsupported operand type for +")

/-- Python `x / 2` (true division; exact on the rational model). -/
def pyHalf (x : Json) : Except PyErr Json :=
  match pyToNum x with
  | some a => .ok (.num (a / 2))
  | none => .error (.typeError "unsupported operand type for /")

/-! ### `find_attraction_info` (source lines 14-115) and its helper -/

/-- A row of the DataFrame `find_attraction_info` returns: the dict built by
`extract_attraction_info` (source lines 138-143). -/
structure AttrRow where
  /-- key `'name'` -/
  name : Json
  /-- key `'ID'` -/
  id : Json
  /-- key `'Ticketmaster Upcoming Events'` -/
  tmUpcoming : Json
  /-- key `'Total Upcoming Events'` -/
  totalUpcoming : Json
deriving Repr

/-- `extract_attraction_info` (source lines 117-143): permissive `.get`
chains with the defaults of the source. -/
def extract_attraction_info (attraction : Json) : Except PyErr AttrRow := do
  let nm ← pyGet attraction "name" (.str "N/A")
  let aid ← pyGet attraction "id" (.str "N/A")
  let ue1 ← pyGet attraction "upcomingEvents" (.obj [])
  let tm ← pyGet ue1 "ticketmaster" (.num 0)
  let ue2 ← pyGet attraction "upcomingEvents" (.obj [])
  let tot ← pyGet ue2 "_total" (.num 0)
  pure ⟨nm, aid, tm, tot⟩

/-- Source lines 99-102: the query is lower-cased and split into whitespace
tokens, and a candidate is kept when `all(keyword in attraction_name_keywords
for keyword in identifier_keywords)`. -/
def nameMatches (identifier nameStr : String) : Bool :=
  (pySplitWs (lowerStr identifier)).all fun kw =>
    (pySplitWs (lowerStr nameStr)).contains kw

/-- The candidate loop of the name branch (source lines 100-103): each
candidate's `attraction['name'].lower()` is consulted (a `KeyError` or
`AttributeError` there propagates), and matching candidates are extracted in
order. -/
def matchAttractions (identifier : String) : List Json → Except PyErr (List AttrRow)
  | [] => .ok []
  | a :: rest => do
    let nm ← pySubscript a "name"
    let lowered ← pyLower nm
    -- `all(keyword in attraction_name_keywords for keyword in identifier_keywords)`;
    -- with `nm = .str s` this is exactly `nameMatches identifier s`, since
    -- `lowered = lowerStr s` and `lowerStr` already lower-cases the tokens.
    if (pySplitWs (lowerStr identifier)).all (fun kw => (pySplitWs lowered).contains kw) then
      let row ← extract_attraction_info a
      let more ← matchAttractions identifier rest
      .ok (row :: more)
    else
      matchAttractions identifier rest

/-- The name branch over a decoded 200 body (source lines 97-107):
`'_embedded' in data and 'attractions' in data['_embedded']` with Python's
short-circuit `and`, then the candidate loop. -/
def processNameLookup (identifier : String) (data : Json) :
    Except PyErr (List AttrRow × Option String) := do
  let hasEmb ← pyContains "_embedded" data
  let hasList ←
    if hasEmb then do
      let emb ← pySubscript data "_embedded"
      pyContains "attractions" emb
    else pure false
  if hasList then do
    let emb ← pySubscript data "_embedded"
    let attrs ← pySubscript emb "attractions"
    let items ← pyIter attrs
    let matched ← matchAttractions identifier items
    if matched.isEmpty then
      pure ([], some "No matching attractions found with the name.")
    else
      pure (matched, none)
  else
    pure ([], some "No matching attractions found.")

/-- The id branch over a decoded 200 body (source lines 109-113):
`'name' in data and 'id' in data`, again short-circuit. -/
def processIdLookup (data : Json) : Except PyErr (List AttrRow × Option String) := do
  let hasName ← pyContains "name" data
  let hasId ← if hasName then pyContains "id" data else pure false
  if hasId then do
    let row ← extract_attraction_info data
    pure ([row], none)
  else
    pure ([], some "No matching attractions found by ID.")

/-- The retry loop of `find_attraction_info` (source lines 69-86), at
attempt index `i` with `fuel` loop iterations left (`fuel = 5 - i` on every
call reached from the top, and the loop body always returns or breaks when
`fuel = 1`, so the `fuel = 0` base is unreachable from the top; the value
there mirrors the loop falling through with `response` unbound, which the
source never reaches either).  `.error msg` is the early error-envelope
return from the last-attempt exception handler; `.ok (status, body)` is the
response the code holds after the loop — a break on a status that
`raise_for_status` accepts, or the final 429 when every slot was consumed by
rate-limit `continue`s.  The second component counts calls to
`requests.get`. -/
def findRetryLoop (env : Nat → HttpAttempt) :
    Nat → Nat → Except String (Nat × Json) × Nat
  | 0, i => (.ok (0, .null), i)
  | fuel + 1, i =>
    match env i with
    | .success status body =>
      if status == 429 then
        -- lines 76-79: sleep, double the delay, `continue` (unconditionally;
        -- on the last slot the loop then falls through with this response).
        if fuel == 0 then (.ok (429, body), i + 1)
        else findRetryLoop env fuel (i + 1)
      else if isErrorStatus status then
        -- line 80 raises HTTPError, caught as a RequestException (lines 82-86)
        if fuel == 0 then
          (.error ("Failed to fetch data after 5 attempts. Error: "
            ++ httpErrorText status), i + 1)
        else findRetryLoop env fuel (i + 1)
      else
        -- line 81: break on a successful `raise_for_status`
        (.ok (status, body), i + 1)
    | .failure msg =>
      if fuel == 0 then
        (.error ("Failed to fetch data after 5 attempts. Error: " ++ msg), i + 1)
      else findRetryLoop env fuel (i + 1)

/-- `find_attraction_info` (source lines 14-115), uncached.  Result: the
`(DataFrame, error)` pair, or `.error` for an exception that propagates to
the caller; paired with the number of `requests.get` calls made. -/
def find_attraction_info (identifier idType apiKey : String)
    (env : Nat → HttpAttempt) :
    Except PyErr (List AttrRow × Option String) × Nat :=
  if idType ∉ (["name", "id"] : List String) then
    -- lines 58-59
    (.error (.valueError "Invalid identifier type. Must be 'name' or 'id'."), 0)
  else if identifier = "" then
    -- lines 61-62 (`if not identifier`)
    (.ok ([], some "Identifier cannot be empty."), 0)
  else
    match findRetryLoop env 5 0 with
    | (.error msg, n) => (.ok ([], some msg), n)
    | (.ok (status, body), n) =>
      if status ≠ 200 then
        -- lines 89-90
        (.ok ([], some ("Error fetching data: Status code " ++ toString status)), n)
      else if idType = "name" then (processNameLookup identifier body, n)
      else (processIdLookup body, n)

/-! ### `get_performer_events_1` (source lines 150-217) and its helper -/

/-- A row of the DataFrame `get_performer_events_1` returns: the dict built
by `extract_event_info` (source lines 240-256), field names following the
dict keys. -/
structure EventRow where
  /-- key `'Event Name'` -/
  eventName : Json
  /-- key `'Event ID'` -/
  eventId : Json
  /-- key `'Start Date'` -/
  startDate : Json
  /-- key `'Start Time'` -/
  startTime : Json
  /-- key `'Venue'` -/
  venue : Json
  /-- key `'Venue ID'` -/
  venueId : Json
  /-- key `'City'` -/
  city : Json
  /-- key `'Country'` -/
  country : Json
  /-- key `'publicsale_start'` -/
  publicsaleStart : Json
  /-- key `'publicsale_end'` -/
  publicsaleEnd : Json
  /-- key `'presale_start'` -/
  presaleStart : Json
  /-- key `'presale_end'` -/
  presaleEnd : Json
  /-- key `'Min Price'` -/
  minPrice : Json
  /-- key `'Max Price'` -/
  maxPrice : Json
  /-- key `'Average Price'` -/
  averagePrice : Json
deriving Repr

/-- `extract_event_info` (source lines 219-256).  Every `.get` chain is
transcribed with the source's defaults and in the source's evaluation order
(prices first, then `venue_id`, then the dict literal's values top to
bottom; chains the source writes twice are evaluated twice). -/
def extract_event_info (event : Json) : Except PyErr EventRow := do
  -- lines 229-233
  let hasPR ← pyContains "priceRanges" event
  let mm ←
    if hasPR then do
      let ranges ← pySubscript event "priceRanges"
      let prices ← pyItemAt ranges 0
      let mn ← pyGet prices "min" .null
      let mx ← pyGet prices "max" .null
      pure (mn, mx)
    else pure (Json.null, Json.null)
  let minPrice := mm.1
  let maxPrice := mm.2
  -- line 235: `(min_price + max_price) / 2 if min_price and max_price else None`
  let avgPrice ←
    if pyTruthy minPrice && pyTruthy maxPrice then do
      let s ← pyAdd minPrice maxPrice
      pyHalf s
    else pure Json.null
  -- line 238: venue_id, computed before the dict literal
  let embV ← pyGet event "_embedded" (.obj [])
  let venuesV ← pyGet embV "venues" (.arr [.obj []])
  let v0 ← pyItemAt venuesV 0
  let venueId ← pyGet v0 "id" (.str "N/A")
  -- lines 241-252: the dict literal's values, in order
  let eventName ← pyGet event "name" .null
  let eventId ← pyGet event "id" .null
  let datesA ← pyGet event "dates" (.obj [])
  let startA ← pyGet datesA "start" (.obj [])
  let startDate ← pyGet startA "localDate" .null
  let datesB ← pyGet event "dates" (.obj [])
  let startB ← pyGet datesB "start" (.obj [])
  let startTime ← pyGet startB "localTime" .null
  let embA ← pyGet event "_embedded" (.obj [])
  let venuesA ← pyGet embA "venues" (.arr [.obj []])
  let vA ← pyItemAt venuesA 0
  let venueName ← pyGet vA "name" .null
  let embB ← pyGet event "_embedded" (.obj [])
  let venuesB ← pyGet embB "venues" (.arr [.obj []])
  let vB ← pyItemAt venuesB 0
  let cityA ← pyGet vB "city" (.obj [])
  let cityName ← pyGet cityA "name" .null
  let embC ← pyGet event "_embedded" (.obj [])
  let venuesC ← pyGet embC "venues" (.arr [.obj []])
  let vC ← pyItemAt venuesC 0
  let countryA ← pyGet vC "country" (.obj [])
  let countryName ← pyGet countryA "name" .null
  let salesA ← pyGet event "sales" (.obj [])
  let publicA ← pyGet salesA "public" (.obj [])
  let pubStart ← pyGet publicA "startDateTime" .null
  let salesB ← pyGet event "sales" (.obj [])
  let publicB ← pyGet salesB "public" (.obj [])
  let pubEnd ← pyGet publicB "endDateTime" .null
  let salesC ← pyGet event "sales" (.obj [])
  let presaleC ← pyGet salesC "presale" (.arr [.obj []])
  let p0 ← pyItemAt presaleC 0
  let preStart ← pyGet p0 "startDateTime" .null
  let salesD ← pyGet event "sales" (.obj [])
  let presaleD ← pyGet salesD "presale" (.arr [.obj []])
  let p1 ← pyItemAt presaleD 0
  let preEnd ← pyGet p1 "endDateTime" .null
  pure ⟨eventName, eventId, startDate, startTime, venueName, venueId,
    cityName, countryName, pubStart, pubEnd, preStart, preEnd,
    minPrice, maxPrice, avgPrice⟩

/-- The events loop of `get_performer_events_1` (source lines 205-208),
extracting rows in order; an exception from `extract_event_info`
propagates (into the surrounding `try`). -/
def extractEvents : List Json → Except PyErr (List EventRow)
  | [] => .ok []
  | e :: rest => do
    let row ← extract_event_info e
    let more ← extractEvents rest
    .ok (row :: more)

/-- Source lines 200-210: the part of the `try` body after
`raise_for_status` — decode, default the embedded events list, return the
not-found envelope on a falsy list, else flatten every event. -/
def processEvents (body : Json) : Except PyErr (List EventRow × Option String) := do
  let emb ← pyGet body "_embedded" (.obj [])
  let eventsJ ← pyGet emb "events" (.arr [])
  if pyTruthy eventsJ then do
    let items ← pyIter eventsJ
    let rows ← extractEvents items
    pure (rows, none)
  else
    pure ([], some "No events found for this performer.")

/-- The `try` body of one attempt of `get_performer_events_1` (source lines
186-210).  `.ok (some envl)` is an in-loop `return`, `.ok none` the
rate-limit `continue`; `.error` an exception reaching the `except`
clauses — the transport's own, `raise_for_status`'s `HTTPError`, or
anything raised while processing the body. -/
def perfAttempt (env : Nat → HttpAttempt) (maxRetries i : Nat) :
    Except PyErr (Option (List EventRow × Option String)) := do
  match env i with
  | .failure msg => .error (.requestError msg)
  | .success status body =>
    if status == 429 then
      -- lines 190-196
      if i < maxRetries - 1 then pure none
      else pure (some ([], some "Rate limit exceeded, try again later."))
    else if isErrorStatus status then
      -- line 198: raise_for_status
      .error (.httpError status)
    else do
      let envl ← processEvents body
      pure (some envl)

/-- The retry loop of `get_performer_events_1` (source lines 185-217) with
its two `except` clauses (lines 212-215), and the fall-through return of
line 217 when the range is exhausted (reachable only with `maxRetries = 0`,
since a last-attempt 429 returns rather than continues).  `fuel` counts the
loop iterations left (`maxRetries - i` from the top); the second component
counts `requests.get` calls. -/
def perfRetryLoop (env : Nat → HttpAttempt) (maxRetries : Nat) :
    Nat → Nat → (List EventRow × Option String) × Nat
  | 0, i => (([], some "Failed to fetch events after retries"), i)
  | fuel + 1, i =>
    match perfAttempt env maxRetries i with
    | .ok (some envl) => (envl, i + 1)
    | .ok none => perfRetryLoop env maxRetries fuel (i + 1)
    | .error (.httpError st) =>
      (([], some ("HTTP error occurred: " ++ httpErrorText st)), i + 1)
    | .error e =>
      (([], some ("Other error occurred: " ++ e.text)), i + 1)

/-- `get_performer_events_1` (source lines 150-217).  The whole body is one
`try` with a catch-all `except Exception`, so the function always returns
an envelope: the model's return type is total. -/
def get_performer_events_1 (attractionId apiKey : String) (maxRetries : Nat)
    (env : Nat → HttpAttempt) : (List EventRow × Option String) × Nat :=
  perfRetryLoop env maxRetries maxRetries 0

/-! ### `fetch_filtered_events` (source lines 262-348) -/

/-- A row of the DataFrame `fetch_filtered_events` returns (the dict of
source lines 332-345), field names following the dict keys. -/
structure FilteredRow where
  /-- key `'ID'` -/
  id : Json
  /-- key `'Venue ID'` -/
  venueId : Json
  /-- key `'Start DateTime'` -/
  startDateTime : Json
  /-- key `'End DateTime'` -/
  endDateTime : Json
  /-- key `'City'` -/
  city : Json
  /-- key `'State Code'` -/
  stateCode : Json
  /-- key `'Country Code'` -/
  countryCode : Json
  /-- key `'Onsale Start DateTime'` -/
  onsaleStartDateTime : Json
  /-- key `'Onsale End DateTime'` -/
  onsaleEndDateTime : Json
  /-- key `'Local Start DateTime'` -/
  localStartDateTime : Json
  /-- key `'Local End DateTime'` -/
  localEndDateTime : Json
  /-- key `'Start End DateTime'` (the source's own label for the timezone) -/
  startEndDateTime : Json
deriving Repr

/-- One event's dict (source lines 332-345), values in order. -/
def filteredRow (event : Json) : Except PyErr FilteredRow := do
  let fid ← pyGet event "id" .null
  let embA ← pyGet event "_embedded" (.obj [])
  let venuesA ← pyGet embA "venues" (.arr [.obj []])
  let vA ← pyItemAt venuesA 0
  let venueId ← pyGet vA "id" .null
  let datesA ← pyGet event "dates" (.obj [])
  let startA ← pyGet datesA "start" (.obj [])
  let startDT ← pyGet startA "dateTime" .null
  let datesB ← pyGet event "dates" (.obj [])
  let endB ← pyGet datesB "end" (.obj [])
  let endDT ← pyGet endB "dateTime" .null
  let embB ← pyGet event "_embedded" (.obj [])
  let venuesB ← pyGet embB "venues" (.arr [.obj []])
  let vB ← pyItemAt venuesB 0
  let cityA ← pyGet vB "city" (.obj [])
  let cityName ← pyGet cityA "name" .null
  let embC ← pyGet event "_embedded" (.obj [])
  let venuesC ← pyGet embC "venues" (.arr [.obj []])
  let vC ← pyItemAt venuesC 0
  let stateA ← pyGet vC "state" (.obj [])
  let stateCode ← pyGet stateA "stateCode" .null
  let embD ← pyGet event "_embedded" (.obj [])
  let venuesD ← pyGet embD "venues" (.arr [.obj []])
  let vD ← pyItemAt venuesD 0
  let countryA ← pyGet vD "country" (.obj [])
  let countryCode ← pyGet countryA "countryCode" .null
  let salesA ← pyGet event "sales" (.obj [])
  let publicA ← pyGet salesA "public" (.obj [])
  let onStart ← pyGet publicA "startDateTime" .null
  let salesB ← pyGet event "sales" (.obj [])
  let publicB ← pyGet salesB "public" (.obj [])
  let onEnd ← pyGet publicB "endDateTime" .null
  let datesC ← pyGet event "dates" (.obj [])
  let startC ← pyGet datesC "start" (.obj [])
  let localStart ← pyGet startC "localDate" .null
  let datesD ← pyGet event "dates" (.obj [])
  let endD ← pyGet datesD "end" (.obj [])
  let localEnd ← pyGet endD "localDate" .null
  let datesE ← pyGet event "dates" (.obj [])
  let tz ← pyGet datesE "timezone" .null
  pure ⟨fid, venueId, startDT, endDT, cityName, stateCode, countryCode,
    onStart, onEnd, localStart, localEnd, tz⟩

/-- The events loop of `fetch_filtered_events` (source lines 331-346). -/
def filteredRows : List Json → Except PyErr (List FilteredRow)
  | [] => .ok []
  | e :: rest => do
    let row ← filteredRow e
    let more ← filteredRows rest
    .ok (row :: more)

/-- Source lines 326-348: the body processing after the loop.  It stands
outside any `try`, so an exception here propagates to the caller. -/
def processFiltered (body : Json) : Except PyErr (List FilteredRow × Option String) := do
  let emb ← pyGet body "_embedded" (.obj [])
  let eventsJ ← pyGet emb "events" (.arr [])
  if pyTruthy eventsJ then do
    let items ← pyIter eventsJ
    let rows ← filteredRows items
    pure (rows, none)
  else
    pure ([], some "No events found for the given criteria.")

/-- The retry loop of `fetch_filtered_events` (source lines 306-321).
A reply whose status makes `raise_for_status` raise lands in the
`except HTTPError` clause, whose retry guard is
`if response and response.status_code == 429`; `response` there is the reply
just bound, and `bool(response)` is `Response.ok` — false for every status
that raised — so the guard never holds and the clause always returns the
HTTP-error envelope.  The guard is transcribed as the source writes it.
A transport failure lands in the `except RequestException` clause: return on
the last attempt, retry otherwise.  The loop can therefore only exit by
breaking on an accepted status or by returning; the `fuel = 0` base renders
`range` exhaustion, with `response` still `None` from line 304 (`.ok none`),
which the post-loop check turns into an envelope. -/
def fetchRetryLoop (env : Nat → HttpAttempt) :
    Nat → Nat → Except String (Option (Nat × Json)) × Nat
  | 0, i => (.ok none, i)
  | fuel + 1, i =>
    match env i with
    | .success status body =>
      if isErrorStatus status then
        if responseTruthy status && status == 429 then
          -- lines 312-315: unreachable, since responseTruthy is false here
          fetchRetryLoop env fuel (i + 1)
        else
          (.error ("HTTP error occurred: " ++ httpErrorText status), i + 1)
      else
        -- line 310: break
        (.ok (some (status, body)), i + 1)
    | .failure msg =>
      -- lines 317-321
      if fuel == 0 then
        (.error ("Failed to fetch data after 5 attempts. Error: " ++ msg), i + 1)
      else fetchRetryLoop env fuel (i + 1)

/-- `fetch_filtered_events` (source lines 262-348).  The filter arguments
only shape the query string of the request, which the response environment
abstracts. -/
def fetch_filtered_events (apiKey : String)
    (startDate endDate city stateCode countryCode : Option String)
    (env : Nat → HttpAttempt) :
    Except PyErr (List FilteredRow × Option String) × Nat :=
  match fetchRetryLoop env 5 0 with
  | (.error msg, n) => (.ok ([], some msg), n)
  | (.ok none, n) =>
    -- line 323: `response is None`
    (.ok ([], some "No successful response received from the API."), n)
  | (.ok (some (status, body)), n) =>
    if status ≠ 200 then
      -- line 323: `response.status_code != 200`
      (.ok ([], some "No successful response received from the API."), n)
    else
      (processFiltered body, n)

/-! ### The `lru_cache` wrapper on `find_attraction_info` (source line 14) -/

/-- The memoisation key: `(identifier, identifier_type, api_key)`. -/
abbrev CacheKey := String × String × String

/-- A cached envelope. -/
abbrev FindResult := List AttrRow × Option String

/-- `functools.lru_cache`'s state: entries most-recently-used first. -/
structure LruCache where
  entries : List (CacheKey × FindResult)

/-- `maxsize=100` on source line 14. -/
def lruMaxSize : Nat := 100

/-- Cache lookup. -/
def LruCache.lookup (c : LruCache) (k : CacheKey) : Option FindResult :=
  (c.entries.find? fun e => e.1 == k).map (·.2)

/-- Record `k ↦ v` as most recently used, evicting the least recently used
entry beyond the capacity. -/
def LruCache.record (c : LruCache) (k : CacheKey) (v : FindResult) : LruCache :=
  ⟨((k, v) :: c.entries.filter fun e => !(e.1 == k)).take lruMaxSize⟩

/-- `find_attraction_info` as called through its `@lru_cache(maxsize=100)`
decorator: a hit returns the stored envelope without touching the network
and refreshes the entry's recency; a miss runs the function, and
`lru_cache` stores the result only when the call returns (a raised
exception is not cached). -/
def find_attraction_info_cached (identifier idType apiKey : String)
    (env : Nat → HttpAttempt) (c : LruCache) :
    Except PyErr FindResult × Nat × LruCache :=
  let k : CacheKey := (identifier, idType, apiKey)
  match c.lookup k with
  | some v => (.ok v, 0, c.record k v)
  | none =>
    match find_attraction_info identifier idType apiKey env with
    | (.ok v, n) => (.ok v, n, c.record k v)
    | (.error e, n) => (.error e, n, c)

/-! ### Concrete response environments and payloads used by the theorems -/

/-- Every request is answered 200 with `body`. -/
def okEnv (body : Json) : Nat → HttpAttempt :=
  fun _ => .success 200 body

/-- The first request is answered 429, every later one 200 with `body`:
the `[429, 200-with-valid-payload]` sequence of the spec's retry property. -/
def rateLimitedEnv (body : Json) : Nat → HttpAttempt :=
  fun i => if i == 0 then .success 429 .null else .success 200 body

/-- A name-search body with one attraction per given `(name, id)` pair. -/
def attractionsBody (entries : List (String × String)) : Json :=
  .obj [("_embedded", .obj [("attractions",
    .arr (entries.map fun e => .obj [("name", .str e.1), ("id", .str e.2)]))])]

/-- A name-search body whose attraction list is built from bare names. -/
def namesOnlyBody (names : List String) : Json :=
  .obj [("_embedded", .obj [("attractions",
    .arr (names.map fun nm => .obj [("name", .str nm)]))])]

/-- The row `extract_attraction_info` builds from `{name, id}` alone. -/
def attrRowOf (nm aid : String) : AttrRow :=
  ⟨.str nm, .str aid, .num 0, .num 0⟩

/-- The name-search payload of the repository's own tests:
`{"_embedded": {"attractions": [{"name": "Test Attraction", "id": "123"}]}}`. -/
def attrBody : Json :=
  attractionsBody [("Test Attraction", "123")]

/-- A 200 name-search body whose single candidate has no `name` key. -/
def noNameBody : Json :=
  .obj [("_embedded", .obj [("attractions", .arr [.obj []])])]

/-- The events payload of the repository's rate-limit test:
`{"_embedded": {"events": [{}]}}`. -/
def eventsBody : Json :=
  .obj [("_embedded", .obj [("events", .arr [.obj []])])]

/-- The fully-defaulted event row: what `extract_event_info` builds from an
event object carrying none of the consulted keys. -/
def defaultEventRow : EventRow :=
  ⟨.null, .null, .null, .null, .null, .str "N/A", .null, .null,
   .null, .null, .null, .null, .null, .null, .null⟩

/-- An event whose `priceRanges` holds one entry `{min := mn, max := mx}`. -/
def priceEvent (mn mx : Json) : Json :=
  .obj [("priceRanges", .arr [.obj [("min", mn), ("max", mx)]])]

/-- The row `extract_event_info` builds from `priceEvent (.num q) (.num r)`:
both prices kept, the average present exactly when both are truthy. -/
def priceRow (q r : ℚ) : EventRow :=
  ⟨.null, .null, .null, .null, .null, .str "N/A", .null, .null,
   .null, .null, .null, .null, .num q, .num r,
   if q ≠ 0 ∧ r ≠ 0 then .num ((q + r) / 2) else .null⟩

/-! ## Toolkit lemmas -/

/-- Characterisation of a successful `Except` bind. -/
theorem exceptBind_ok {α β : Type} {x : Except PyErr α} {f : α → Except PyErr β} {b : β} :
    (x >>= f) = .ok b ↔ ∃ a, x = .ok a ∧ f a = .ok b := by
  cases x <;> simp [Bind.bind, Except.bind]

/-- Iterating a truthy Python value yields at least one element. -/
theorem pyIter_ne_nil {j : Json} {items : List Json}
    (ht : pyTruthy j = true) (hi : pyIter j = .ok items) : items ≠ [] := by
  cases j with
  | str s =>
    obtain ⟨cs⟩ := s
    cases cs <;> simp_all [pyTruthy, pyIter]
    exact fun hc => by simp [← hi] at hc
  | arr elems =>
    cases elems <;> simp_all [pyTruthy, pyIter]
    exact fun hc => by simp [← hi] at hc
  | obj fields =>
    cases fields <;> simp_all [pyTruthy, pyIter]
    exact fun hc => by simp [← hi] at hc
  | _ => simp_all [pyTruthy, pyIter]

/-- `extractEvents` keeps one row per event. -/
theorem extractEvents_ne_nil {items : List Json} {rows : List EventRow}
    (h : extractEvents items = .ok rows) (hne : items ≠ []) : rows ≠ [] := by
  cases items with
  | nil => exact absurd rfl hne
  | cons e rest =>
    rw [extractEvents, exceptBind_ok] at h
    obtain ⟨row, -, h⟩ := h
    rw [exceptBind_ok] at h
    obtain ⟨more, -, h⟩ := h
    cases h
    simp

/-- The envelope `processEvents` returns has a null error exactly when its
table is non-empty. -/
theorem processEvents_inv {body : Json} {tbl : List EventRow} {err : Option String}
    (h : processEvents body = .ok (tbl, err)) : err = none ↔ tbl ≠ [] := by
  rw [processEvents, exceptBind_ok] at h
  obtain ⟨emb, -, h⟩ := h
  rw [exceptBind_ok] at h
  obtain ⟨eventsJ, -, h⟩ := h
  by_cases ht : pyTruthy eventsJ
  · rw [if_pos ht, exceptBind_ok] at h
    obtain ⟨items, hitems, h⟩ := h
    rw [exceptBind_ok] at h
    obtain ⟨rows, hrows, h⟩ := h
    cases h
    simp [extractEvents_ne_nil hrows (pyIter_ne_nil ht hitems)]
  · rw [if_neg ht] at h
    cases h
    simp

/-- Every in-loop `return` of `get_performer_events_1` satisfies the
envelope invariant. -/
theorem perfAttempt_inv {env : Nat → HttpAttempt} {m i : Nat}
    {envl : List EventRow × Option String}
    (h : perfAttempt env m i = .ok (some envl)) : envl.2 = none ↔ envl.1 ≠ [] := by
  rw [perfAttempt] at h
  cases he : env i with
  | failure msg => rw [he] at h; simp at h
  | success status body =>
    rw [he] at h
    dsimp only at h
    by_cases h429 : status == 429
    · rw [if_pos h429] at h
      by_cases hlast : i < m - 1
      · rw [if_pos hlast] at h; simp [pure, Except.pure] at h
      · rw [if_neg hlast] at h
        simp [pure, Except.pure] at h
        simp [← h]
    · rw [if_neg h429] at h
      by_cases herr : isErrorStatus status
      · simp [herr] at h
      · rw [if_neg (by simp [herr])] at h
        rw [exceptBind_ok] at h
        obtain ⟨e1, he1, h⟩ := h
        simp [pure, Except.pure] at h
        exact h ▸ processEvents_inv he1

/-- The retry loop of `get_performer_events_1` maintains the envelope
invariant whatever the responses. -/
theorem perfRetryLoop_inv {env : Nat → HttpAttempt} {m : Nat} :
    ∀ {fuel i : Nat} {tbl : List EventRow} {err : Option String} {n : Nat},
      perfRetryLoop env m fuel i = ((tbl, err), n) → (err = none ↔ tbl ≠ []) := by
  intro fuel
  induction fuel with
  | zero =>
    intro i tbl err n h
    rw [perfRetryLoop] at h
    injection h with h1 h2
    injection h1 with ha hb
    subst ha; subst hb
    simp
  | succ fuel ih =>
    intro i tbl err n h
    rw [perfRetryLoop] at h
    cases ha : perfAttempt env m i with
    | ok o =>
      rw [ha] at h
      cases o with
      | some envl =>
        dsimp only at h
        injection h with h1 h2
        subst h1
        exact perfAttempt_inv ha
      | none =>
        dsimp only at h
        exact ih h
    | error e =>
      rw [ha] at h
      cases e <;> dsimp only at h <;> injection h with h1 h2 <;>
        injection h1 with ha1 hb1 <;> subst ha1 <;> subst hb1 <;> simp

/-- The envelope of the name branch has a null error exactly when its table
is non-empty. -/
theorem processNameLookup_inv {identifier : String} {data : Json}
    {tbl : List AttrRow} {err : Option String}
    (h : processNameLookup identifier data = .ok (tbl, err)) :
    err = none ↔ tbl ≠ [] := by
  rw [processNameLookup, exceptBind_ok] at h
  obtain ⟨hasEmb, -, h⟩ := h
  dsimp only at h
  cases hasEmb with
  | false =>
    rw [if_neg (by simp)] at h
    simp only [pure, Except.pure, Bind.bind, Except.bind] at h
    rw [if_neg (by simp)] at h
    injection h with h1
    injection h1 with h2 h3
    subst h2
    subst h3
    simp
  | true =>
    rw [if_pos rfl, exceptBind_ok] at h
    obtain ⟨emb, -, h⟩ := h
    rw [exceptBind_ok] at h
    obtain ⟨hasList, -, h⟩ := h
    cases hasList with
    | false =>
      rw [if_neg (by simp)] at h
      cases h
      simp
    | true =>
      rw [if_pos rfl, exceptBind_ok] at h
      obtain ⟨emb2, -, h⟩ := h
      rw [exceptBind_ok] at h
      obtain ⟨attrs, -, h⟩ := h
      rw [exceptBind_ok] at h
      obtain ⟨items, -, h⟩ := h
      rw [exceptBind_ok] at h
      obtain ⟨matched, -, h⟩ := h
      by_cases hm : matched.isEmpty
      · rw [if_pos hm] at h
        cases h
        simp
      · rw [if_neg hm] at h
        cases h
        simpa [List.isEmpty_iff] using hm

/-- The envelope of the id branch has a null error exactly when its table is
non-empty. -/
theorem processIdLookup_inv {data : Json} {tbl : List AttrRow} {err : Option String}
    (h : processIdLookup data = .ok (tbl, err)) : err = none ↔ tbl ≠ [] := by
  rw [processIdLookup, exceptBind_ok] at h
  obtain ⟨hasName, -, h⟩ := h
  dsimp only at h
  cases hasName with
  | false =>
    rw [if_neg (by simp)] at h
    simp only [pure, Except.pure, Bind.bind, Except.bind] at h
    rw [if_neg (by simp)] at h
    injection h with h1
    injection h1 with h2 h3
    subst h2
    subst h3
    simp
  | true =>
    rw [if_pos rfl, exceptBind_ok] at h
    obtain ⟨hasId, -, h⟩ := h
    cases hasId with
    | false =>
      rw [if_neg (by simp)] at h
      cases h
      simp
    | true =>
      rw [if_pos rfl, exceptBind_ok] at h
      obtain ⟨row, -, h⟩ := h
      cases h
      simp

/-- Every envelope `find_attraction_info` returns satisfies the invariant. -/
theorem find_attraction_info_inv {identifier idType apiKey : String}
    {env : Nat → HttpAttempt} {tbl : List AttrRow} {err : Option String} {n : Nat}
    (h : find_attraction_info identifier idType apiKey env = (.ok (tbl, err), n)) :
    err = none ↔ tbl ≠ [] := by
  rw [find_attraction_info] at h
  by_cases h1 : idType ∉ (["name", "id"] : List String)
  · rw [if_pos h1] at h; simp at h
  · rw [if_neg h1] at h
    by_cases h2 : identifier = ""
    · rw [if_pos h2] at h
      injection h with ha hb
      injection ha with hc
      injection hc with hd he
      subst hd; subst he
      simp
    · rw [if_neg h2] at h
      cases hl : findRetryLoop env 5 0 with
      | mk r nn =>
        rw [hl] at h
        cases r with
        | error msg =>
          dsimp only at h
          injection h with ha hb
          injection ha with hc
          injection hc with hd he
          subst hd; subst he
          simp
        | ok sb =>
          obtain ⟨status, body⟩ := sb
          dsimp only at h
          by_cases hs : status ≠ 200
          · rw [if_pos hs] at h
            injection h with ha hb
            injection ha with hc
            injection hc with hd he
            subst hd; subst he
            simp
          · rw [if_neg hs] at h
            by_cases hn : idType = "name"
            · rw [if_pos hn] at h
              injection h with ha hb
              exact processNameLookup_inv ha
            · rw [if_neg hn] at h
              injection h with ha hb
              exact processIdLookup_inv ha

/-- `filteredRows` keeps one row per event. -/
theorem filteredRows_ne_nil {items : List Json} {rows : List FilteredRow}
    (h : filteredRows items = .ok rows) (hne : items ≠ []) : rows ≠ [] := by
  cases items with
  | nil => exact absurd rfl hne
  | cons e rest =>
    rw [filteredRows, exceptBind_ok] at h
    obtain ⟨row, -, h⟩ := h
    rw [exceptBind_ok] at h
    obtain ⟨more, -, h⟩ := h
    cases h
    simp

/-- The envelope `processFiltered` returns satisfies the invariant. -/
theorem processFiltered_inv {body : Json} {tbl : List FilteredRow} {err : Option String}
    (h : processFiltered body = .ok (tbl, err)) : err = none ↔ tbl ≠ [] := by
  rw [processFiltered, exceptBind_ok] at h
  obtain ⟨emb, -, h⟩ := h
  rw [exceptBind_ok] at h
  obtain ⟨eventsJ, -, h⟩ := h
  by_cases ht : pyTruthy eventsJ
  · rw [if_pos ht, exceptBind_ok] at h
    obtain ⟨items, hitems, h⟩ := h
    rw [exceptBind_ok] at h
    obtain ⟨rows, hrows, h⟩ := h
    cases h
    simp [filteredRows_ne_nil hrows (pyIter_ne_nil ht hitems)]
  · rw [if_neg ht] at h
    cases h
    simp

/-- Every envelope `fetch_filtered_events` returns satisfies the invariant. -/
theorem fetch_filtered_events_inv {apiKey : String}
    {startDate endDate city stateCode countryCode : Option String}
    {env : Nat → HttpAttempt} {tbl : List FilteredRow} {err : Option String} {n : Nat}
    (h : fetch_filtered_events apiKey startDate endDate city stateCode countryCode env
      = (.ok (tbl, err), n)) :
    err = none ↔ tbl ≠ [] := by
  rw [fetch_filtered_events] at h
  cases hl : fetchRetryLoop env 5 0 with
  | mk r nn =>
    rw [hl] at h
    cases r with
    | error msg =>
      dsimp only at h
      injection h with ha hb
      injection ha with hc
      injection hc with hd he
      subst hd; subst he
      simp
    | ok o =>
      cases o with
      | none =>
        dsimp only at h
        injection h with ha hb
        injection ha with hc
        injection hc with hd he
        subst hd; subst he
        simp
      | some sb =>
        obtain ⟨status, body⟩ := sb
        dsimp only at h
        by_cases hs : status ≠ 200
        · rw [if_pos hs] at h
          injection h with ha hb
          injection ha with hc
          injection hc with hd he
          subst hd; subst he
          simp
        · rw [if_neg hs] at h
          injection h with ha hb
          exact processFiltered_inv ha

/-- Whatever was recorded last is found by the next lookup (`lru_cache`
keeps the just-used key, its capacity being positive). -/
theorem LruCache.lookup_record (c : LruCache) (k : CacheKey) (v : FindResult) :
    (c.record k v).lookup k = some v := by
  simp [LruCache.lookup, LruCache.record, lruMaxSize, List.take_succ_cons, List.find?]

/-- When no candidate name matches, the candidate loop keeps nothing. -/
theorem matchAttractions_all_fail (identifier : String) (names : List String)
    (h : ∀ nm ∈ names, nameMatches identifier nm = false) :
    matchAttractions identifier (names.map fun nm => .obj [("name", .str nm)]) = .ok [] := by
  induction names with
  | nil => rfl
  | cons nm rest ih =>
    have h1 : ¬ ∀ kw ∈ pySplitWs (lowerStr identifier), kw ∈ pySplitWs (lowerStr nm) := by
      simpa [nameMatches, List.all_eq_true, List.elem_iff] using h nm (by simp)
    simp [matchAttractions, pySubscript, jLookup, pyLower, Bind.bind, Except.bind,
      h1, ih fun x hx => h x (by simp [hx])]

/-- An unrecognised `identifier_type` raises `ValueError` before any request. -/
theorem find_invalid_type (identifier idType apiKey : String)
    (env : Nat → HttpAttempt) (h : idType ∉ (["name", "id"] : List String)) :
    find_attraction_info identifier idType apiKey env
      = (.error (.valueError "Invalid identifier type. Must be 'name' or 'id'."), 0) := by
  simp [find_attraction_info, h]

/-- Against a 200 body holding exactly one candidate, the row is kept
exactly when `nameMatches` accepts the candidate's name. -/
theorem find_single_candidate (identifier nm aid apiKey : String)
    (hid : identifier ≠ "") :
    find_attraction_info identifier "name" apiKey (okEnv (attractionsBody [(nm, aid)]))
      = if nameMatches identifier nm
        then (.ok ([attrRowOf nm aid], none), 1)
        else (.ok ([], some "No matching attractions found with the name."), 1) := by
  by_cases hm : nameMatches identifier nm
  · rw [if_pos hm]
    have hm' : ∀ kw ∈ pySplitWs (lowerStr identifier), kw ∈ pySplitWs (lowerStr nm) := by
      simpa [nameMatches, List.all_eq_true, List.elem_iff] using hm
    simp [find_attraction_info, hid, findRetryLoop, okEnv, isErrorStatus, attractionsBody,
      processNameLookup, matchAttractions, extract_attraction_info, attrRowOf,
      pyContains, pySubscript, pyGet, jLookup, pyIter, pyLower,
      Bind.bind, Except.bind, pure, Except.pure]
    rw [if_pos hm']
    simp
  · rw [if_neg hm]
    have hm' : ¬ ∀ kw ∈ pySplitWs (lowerStr identifier), kw ∈ pySplitWs (lowerStr nm) := by
      simpa [nameMatches, List.all_eq_true, List.elem_iff] using hm
    simp [find_attraction_info, hid, findRetryLoop, okEnv, isErrorStatus, attractionsBody,
      processNameLookup, matchAttractions,
      pyContains, pySubscript, pyGet, jLookup, pyIter, pyLower,
      Bind.bind, Except.bind, pure, Except.pure]
    rw [if_neg hm']
    simp

/-- `extract_event_info` on a lone one-entry price range: both prices kept,
the average computed exactly when both are truthy. -/
theorem extract_priceEvent (q r : ℚ) :
    extract_event_info (priceEvent (.num q) (.num r)) = .ok (priceRow q r) := by
  have key : extract_event_info (priceEvent (.num q) (.num r))
      = if (pyTruthy (.num q) && pyTruthy (.num r)) = true
        then .ok ⟨.null, .null, .null, .null, .null, .str "N/A", .null, .null,
          .null, .null, .null, .null, .num q, .num r, .num ((q + r) / 2)⟩
        else .ok ⟨.null, .null, .null, .null, .null, .str "N/A", .null, .null,
          .null, .null, .null, .null, .num q, .num r, .null⟩ := rfl
  rw [key]
  simp only [priceRow]
  by_cases hq : q = 0
  · rw [if_neg (by simp [pyTruthy, hq]), if_neg (by simp [hq])]
  · by_cases hr : r = 0
    · rw [if_neg (by simp [pyTruthy, hr]), if_neg (by simp [hr])]
    · rw [if_pos (by simp [pyTruthy, hq, hr]), if_pos (And.intro hq hr)]

/-! ## The claims -/

/-- C1: on the response sequence [429, 200-with-valid-payload],
`find_attraction_info` and `get_performer_events_1` retry exactly once
(two requests) and return the flattened payload with a null error; but
`fetch_filtered_events` does not — `raise_for_status` throws on the 429 and
the handler's guard `if response and ...` is false (a 429 response is falsy),
so after one request it returns the HTTP-error envelope instead of retrying,
against the claim and the function's own docstring. -/
theorem c1_rate_limited_retry :
    find_attraction_info "Test Attraction" "name" "key" (rateLimitedEnv attrBody)
      = (.ok ([attrRowOf "Test Attraction" "123"], none), 2)
    ∧ get_performer_events_1 "K8vZ9175Tr0" "key" 5 (rateLimitedEnv eventsBody)
      = (([defaultEventRow], none), 2)
    ∧ fetch_filtered_events "key" none none none none none (rateLimitedEnv eventsBody)
      = (.ok ([], some ("HTTP error occurred: " ++ httpErrorText 429)), 1) :=
  ⟨rfl, rfl, rfl⟩

/-- C2, counterexample to the claim as stated: a 2xx JSON response body —
a name-search reply whose candidate object has no `name` key — makes
`find_attraction_info` raise a `KeyError` to the caller, so the invalid
`identifier_type` `ValueError` is not the only escaping exception. -/
theorem c2_raise_on_2xx_counterexample :
    find_attraction_info "Attraction" "name" "key" (okEnv noNameBody)
      = (.error (.keyError "name"), 1) := rfl

/-- C2, amended: failures are reported through the envelope and an invalid
`identifier_type` raises `ValueError` before any request; however malformed
2xx bodies can also make `find_attraction_info` (candidate without a `name`
key) and `fetch_filtered_events` (non-object body) raise, their body
processing being outside every `try`; only `get_performer_events_1` cannot
raise — its catch-all handler turns any exception from body processing into
an `Other error occurred` envelope. -/
theorem c2_envelope_discipline_amended :
    (∀ (identifier idType apiKey : String) (env : Nat → HttpAttempt),
      idType ∉ (["name", "id"] : List String) →
      find_attraction_info identifier idType apiKey env
        = (.error (.valueError "Invalid identifier type. Must be 'name' or 'id'."), 0))
    ∧ find_attraction_info "x" "name" "key" (okEnv noNameBody)
      = (.error (.keyError "name"), 1)
    ∧ fetch_filtered_events "key" none none none none none (okEnv (.arr []))
      = (.error (.attributeError "object has no attribute 'get'"), 1)
    ∧ (∀ (attractionId apiKey : String) (body : Json) (e : PyErr),
      processEvents body = .error e → e.isHttp = false →
      get_performer_events_1 attractionId apiKey 5 (okEnv body)
        = (([], some ("Other error occurred: " ++ e.text)), 1)) := by
  refine ⟨find_invalid_type, rfl, rfl, ?_⟩
  intro attractionId apiKey body e h he
  cases e <;> simp_all [get_performer_events_1, perfRetryLoop, perfAttempt, okEnv,
    isErrorStatus, Bind.bind, Except.bind, PyErr.isHttp]

/-- C2, witness: the amended theorem applied at concrete inputs — the
`ValueError` fail-fast at an invalid `identifier_type`, and the catch-all
envelope of `get_performer_events_1` for a body whose flattening raises an
`IndexError`. -/
theorem c2_witness :
    find_attraction_info "Taylor" "tour" "key" (okEnv attrBody)
      = (.error (.valueError "Invalid identifier type. Must be 'name' or 'id'."), 0)
    ∧ get_performer_events_1 "aid" "key" 5 (okEnv (.obj [("_embedded",
        .obj [("events", .arr [.obj [("priceRanges", .arr [])]])])]))
      = (([], some ("Other error occurred: " ++ PyErr.indexError.text)), 1) :=
  ⟨c2_envelope_discipline_amended.1 "Taylor" "tour" "key" (okEnv attrBody) (by decide),
   c2_envelope_discipline_amended.2.2.2 "aid" "key"
     (.obj [("_embedded", .obj [("events", .arr [.obj [("priceRanges", .arr [])]])])])
     .indexError rfl rfl⟩

/-- C3, counterexample to the claim as stated: an event object whose
`priceRanges` is a present-but-empty list makes `extract_event_info` raise
an `IndexError`, and the whole `get_performer_events_1` call then returns
an error envelope with no record — so there is an event-object shape that
makes the flattening of the record fail. -/
theorem c3_empty_priceranges_counterexample :
    extract_event_info (.obj [("priceRanges", .arr [])]) = .error .indexError
    ∧ get_performer_events_1 "perf" "key" 5 (okEnv (.obj [("_embedded",
        .obj [("events", .arr [.obj [("priceRanges", .arr [])]])])]))
      = (([], some ("Other error occurred: " ++ PyErr.indexError.text)), 1) :=
  ⟨rfl, rfl⟩

/-- C3, amended: missing nested paths — keys absent at any depth — degrade
to null/absent/default values in the Event record (for an event object
carrying any `name`/`id` values and none of the `priceRanges`, `_embedded`,
`dates` and `sales` keys, everything else defaults; the bare empty object
defaults throughout, and so do present-but-empty `dates`/`sales`/`_embedded`
subobjects); but a present-and-empty `priceRanges`, `venues` or `presale`
list makes the flattening of the record fail with an `IndexError`. -/
theorem c3_missing_paths_amended :
    (∀ nm aid : Json,
      extract_event_info (.obj [("name", nm), ("id", aid)])
        = .ok ⟨nm, aid, .null, .null, .null, .str "N/A", .null, .null,
            .null, .null, .null, .null, .null, .null, .null⟩)
    ∧ extract_event_info (.obj []) = .ok defaultEventRow
    ∧ extract_event_info
        (.obj [("dates", .obj []), ("sales", .obj []), ("_embedded", .obj [])])
      = .ok defaultEventRow
    ∧ extract_event_info (.obj [("_embedded", .obj [("venues", .arr [])])])
      = .error .indexError
    ∧ extract_event_info (.obj [("sales", .obj [("presale", .arr [])])])
      = .error .indexError :=
  ⟨fun nm aid => rfl, rfl, rfl, rfl, rfl⟩

/-- C3, witness: the amended theorem's universal part applied to a concrete
event carrying a name and a null id. -/
theorem c3_witness :
    extract_event_info (.obj [("name", .str "Concert"), ("id", .null)])
      = .ok ⟨.str "Concert", .null, .null, .null, .null, .str "N/A", .null, .null,
          .null, .null, .null, .null, .null, .null, .null⟩ :=
  c3_missing_paths_amended.1 (.str "Concert") .null

/-- C4: the name filter keeps a candidate exactly when every lower-cased
whitespace token of the query occurs among the lower-cased whitespace
tokens of the candidate's name — order-independent and with no substring
matching: the token-set characterisation of `nameMatches`, the filter as
`find_attraction_info` applies it to a candidate, the spec's two examples
(query "Swift Taylor" matching "Taylor Swift", query "Taylor" matching
"Taylor Swift World Tour") plus a mixed-candidate run, and the rejection of
the mere substring "Tay". -/
theorem c4_token_filter :
    (∀ identifier nameStr : String,
      nameMatches identifier nameStr = true ↔
        ∀ kw ∈ pySplitWs (lowerStr identifier), kw ∈ pySplitWs (lowerStr nameStr))
    ∧ (∀ (identifier nm aid apiKey : String), identifier ≠ "" →
      find_attraction_info identifier "name" apiKey (okEnv (attractionsBody [(nm, aid)]))
        = if nameMatches identifier nm
          then (.ok ([attrRowOf nm aid], none), 1)
          else (.ok ([], some "No matching attractions found with the name."), 1))
    ∧ find_attraction_info "Swift Taylor" "name" "key"
        (okEnv (attractionsBody [("Taylor Swift", "ts1")]))
      = (.ok ([attrRowOf "Taylor Swift" "ts1"], none), 1)
    ∧ find_attraction_info "Taylor" "name" "key"
        (okEnv (attractionsBody [("Taylor Swift World Tour", "tour1")]))
      = (.ok ([attrRowOf "Taylor Swift World Tour" "tour1"], none), 1)
    ∧ find_attraction_info "taylor swift" "name" "key"
        (okEnv (attractionsBody [("Taylor Swift", "ts1"), ("Ed Sheeran", "ed1")]))
      = (.ok ([attrRowOf "Taylor Swift" "ts1"], none), 1)
    ∧ nameMatches "Tay" "Taylor Swift" = false := by
  refine ⟨?_, find_single_candidate, rfl, rfl, rfl, rfl⟩
  intro identifier nameStr
  simp [nameMatches, List.all_eq_true, List.elem_iff]

/-- C4, witness: the single-candidate characterisation applied at the
spec's "Swift Taylor" / "Taylor Swift" example. -/
theorem c4_witness :
    find_attraction_info "Swift Taylor" "name" "k2"
        (okEnv (attractionsBody [("Taylor Swift", "ts1")]))
      = if nameMatches "Swift Taylor" "Taylor Swift"
        then (.ok ([attrRowOf "Taylor Swift" "ts1"], none), 1)
        else (.ok ([], some "No matching attractions found with the name."), 1) :=
  c4_token_filter.2.1 "Swift Taylor" "Taylor Swift" "ts1" "k2" (by decide)

/-- C5: when a `priceRanges` entry exists its first element's `min` and
`max` become the record's prices; the average is `(min + max) / 2` and is
present exactly when both prices are truthy (so a price of exactly 0 counts
as absent), otherwise null; in particular min 50 and max 150 give an
average of 100, a missing `min` gives a null average, and a zero `min`
gives a null average. -/
theorem c5_price_extraction :
    (∀ q r : ℚ, extract_event_info (priceEvent (.num q) (.num r)) = .ok (priceRow q r))
    ∧ extract_event_info (priceEvent (.num 50) (.num 150))
      = .ok { defaultEventRow with
          minPrice := .num 50, maxPrice := .num 150, averagePrice := .num 100 }
    ∧ extract_event_info (.obj [("priceRanges", .arr [.obj [("max", .num 150)]])])
      = .ok { defaultEventRow with maxPrice := .num 150 }
    ∧ extract_event_info (priceEvent (.num 0) (.num 150))
      = .ok { defaultEventRow with minPrice := .num 0, maxPrice := .num 150 } := by
  refine ⟨extract_priceEvent, ?_, rfl, rfl⟩
  rw [extract_priceEvent 50 150]
  have : priceRow 50 150 = { defaultEventRow with
      minPrice := .num 50, maxPrice := .num 150, averagePrice := .num 100 } := by
    simp [priceRow, defaultEventRow]
    norm_num
  rw [this]

/-- C6: the three not-found outcomes of `find_attraction_info` are
distinguished by their error strings — a 200 name-search body without the
attraction list (no `_embedded`, or no `attractions` under it) gives
"No matching attractions found.", a list none of whose candidates passes
the token filter gives "No matching attractions found with the name.", and
an id-lookup body lacking `name` or `id` gives
"No matching attractions found by ID." — each with the empty table. -/
theorem c6_not_found_messages :
    (∀ (fields : List (String × Json)) (apiKey identifier : String),
      jLookup fields "_embedded" = none → identifier ≠ "" →
      find_attraction_info identifier "name" apiKey (okEnv (.obj fields))
        = (.ok ([], some "No matching attractions found."), 1))
    ∧ (∀ (inner : List (String × Json)) (apiKey identifier : String),
      jLookup inner "attractions" = none → identifier ≠ "" →
      find_attraction_info identifier "name" apiKey
          (okEnv (.obj [("_embedded", .obj inner)]))
        = (.ok ([], some "No matching attractions found."), 1))
    ∧ (∀ (apiKey identifier : String) (names : List String), identifier ≠ "" →
      (∀ nm ∈ names, nameMatches identifier nm = false) →
      find_attraction_info identifier "name" apiKey (okEnv (namesOnlyBody names))
        = (.ok ([], some "No matching attractions found with the name."), 1))
    ∧ (∀ (fields : List (String × Json)) (apiKey identifier : String), identifier ≠ "" →
      jLookup fields "name" = none ∨ jLookup fields "id" = none →
      find_attraction_info identifier "id" apiKey (okEnv (.obj fields))
        = (.ok ([], some "No matching attractions found by ID."), 1)) := by
  refine ⟨?_, ?_, ?_, ?_⟩
  · intro fields apiKey identifier h hid
    simp [find_attraction_info, hid, findRetryLoop, okEnv, isErrorStatus,
      processNameLookup, pyContains, h, Bind.bind, Except.bind, pure, Except.pure]
  · intro inner apiKey identifier h hid
    have h' : List.find? (fun e => e.1 == "attractions") inner = none := by
      simpa [jLookup] using h
    simp [find_attraction_info, hid, findRetryLoop, okEnv, isErrorStatus,
      processNameLookup, pyContains, pySubscript, jLookup, h',
      Bind.bind, Except.bind, pure, Except.pure]
  · intro apiKey identifier names hid h
    simp [find_attraction_info, hid, findRetryLoop, okEnv, isErrorStatus, namesOnlyBody,
      processNameLookup, pyContains, pySubscript, jLookup, pyIter,
      Bind.bind, Except.bind, pure, Except.pure,
      matchAttractions_all_fail identifier names h]
  · intro fields apiKey identifier hid h
    rcases h with h | h <;>
      simp [find_attraction_info, hid, findRetryLoop, okEnv, isErrorStatus,
        processIdLookup, pyContains, h, Bind.bind, Except.bind, pure, Except.pure]

/-- C6, witness: the three messages obtained from the theorem at concrete
bodies — an empty 200 body, a list whose one candidate fails the filter,
and an id-lookup body carrying a name but no id. -/
theorem c6_witness :
    find_attraction_info "Taylor Swift" "name" "key" (okEnv (.obj []))
      = (.ok ([], some "No matching attractions found."), 1)
    ∧ find_attraction_info "Taylor Swift" "name" "key" (okEnv (namesOnlyBody ["Ed Sheeran"]))
      = (.ok ([], some "No matching attractions found with the name."), 1)
    ∧ find_attraction_info "K8vZ9175Tr0" "id" "key" (okEnv (.obj [("name", .str "Test")]))
      = (.ok ([], some "No matching attractions found by ID."), 1) :=
  ⟨c6_not_found_messages.1 [] "key" "Taylor Swift" rfl (by decide),
   c6_not_found_messages.2.2.1 "key" "Taylor Swift" ["Ed Sheeran"] (by decide) (by decide),
   c6_not_found_messages.2.2.2 [("name", .str "Test")] "key" "K8vZ9175Tr0" (by decide)
     (Or.inr rfl)⟩

/-- C7: for every identifier and api key, an `identifier_type` outside
{name, id} makes `find_attraction_info` raise
`ValueError("Invalid identifier type. Must be 'name' or 'id'.")` with zero
requests made, whatever the network would have answered. -/
theorem c7_invalid_identifier_type (identifier idType apiKey : String)
    (env : Nat → HttpAttempt) (h : idType ∉ (["name", "id"] : List String)) :
    find_attraction_info identifier idType apiKey env
      = (.error (.valueError "Invalid identifier type. Must be 'name' or 'id'."), 0) :=
  find_invalid_type identifier idType apiKey env h

/-- C7, witness: the fail-fast at `identifier_type = "invalid_type"`. -/
theorem c7_witness :
    find_attraction_info "Test Attraction" "invalid_type" "key" (okEnv attrBody)
      = (.error (.valueError "Invalid identifier type. Must be 'name' or 'id'."), 0) :=
  c7_invalid_identifier_type "Test Attraction" "invalid_type" "key" (okEnv attrBody)
    (by decide)

/-- C8: for both valid `identifier_type`s and every api key, the empty
identifier returns the envelope (empty table,
"Identifier cannot be empty.") with zero requests made — an error envelope,
not a raised exception. -/
theorem c8_empty_identifier (idType apiKey : String) (env : Nat → HttpAttempt)
    (h : idType ∈ (["name", "id"] : List String)) :
    find_attraction_info "" idType apiKey env
      = (.ok ([], some "Identifier cannot be empty."), 0) := by
  simp only [List.mem_cons, List.mem_singleton] at h
  rcases h with h | h | h
  · subst h; rfl
  · subst h; rfl
  · cases h

/-- C8, witness: the empty identifier under a name search. -/
theorem c8_witness :
    find_attraction_info "" "name" "key" (okEnv attrBody)
      = (.ok ([], some "Identifier cannot be empty."), 0) :=
  c8_empty_identifier "name" "key" (okEnv attrBody) (by decide)

/-- C9: when a first call through the `lru_cache`-wrapped resolver returns
an envelope, a second call with the identical (identifier, identifier_type,
api_key) triple returns the bit-identical envelope with zero requests made,
whatever the network would answer meanwhile. -/
theorem c9_memoized_identical_call (identifier idType apiKey : String)
    (env env2 : Nat → HttpAttempt) (c : LruCache) (v : FindResult) (n : Nat)
    (c1 : LruCache)
    (h : find_attraction_info_cached identifier idType apiKey env c = (.ok v, n, c1)) :
    find_attraction_info_cached identifier idType apiKey env2 c1
      = (.ok v, 0, c1.record (identifier, idType, apiKey) v) := by
  have key : c1.lookup (identifier, idType, apiKey) = some v := by
    unfold find_attraction_info_cached at h
    dsimp only at h
    split at h
    · simp only [Prod.mk.injEq, Except.ok.injEq] at h
      obtain ⟨h1, -, h3⟩ := h
      rw [← h3, ← h1]
      exact LruCache.lookup_record c (identifier, idType, apiKey) _
    · split at h
      · simp only [Prod.mk.injEq, Except.ok.injEq] at h
        obtain ⟨h1, -, h3⟩ := h
        rw [← h3, ← h1]
        exact LruCache.lookup_record c (identifier, idType, apiKey) _
      · simp at h
  simp [find_attraction_info_cached, key]

/-- C9, witness: a successful first call on an empty cache, then the
memoized second call answering from the cache with zero requests. -/
theorem c9_witness :
    find_attraction_info_cached "Test Attraction" "name" "key"
        (fun _ => .failure "connection refused")
        (LruCache.mk [(("Test Attraction", "name", "key"),
          ([attrRowOf "Test Attraction" "123"], none))])
      = (.ok ([attrRowOf "Test Attraction" "123"], none), 0,
         LruCache.mk [(("Test Attraction", "name", "key"),
          ([attrRowOf "Test Attraction" "123"], none))]) :=
  c9_memoized_identical_call "Test Attraction" "name" "key" (okEnv attrBody)
    (fun _ => .failure "connection refused") (LruCache.mk []) _ 1 _ rfl

/-- C10: for every input and every response environment, whenever one of
the three operations returns an envelope, its error string is null exactly
when its table is non-empty — every error path pairs a message with the
empty table, and every null-error success carries at least one record. -/
theorem c10_error_iff_empty :
    (∀ (identifier idType apiKey : String) (env : Nat → HttpAttempt)
      (tbl : List AttrRow) (err : Option String) (n : Nat),
      find_attraction_info identifier idType apiKey env = (.ok (tbl, err), n) →
      (err = none ↔ tbl ≠ []))
    ∧ (∀ (attractionId apiKey : String) (m : Nat) (env : Nat → HttpAttempt)
      (tbl : List EventRow) (err : Option String) (n : Nat),
      get_performer_events_1 attractionId apiKey m env = ((tbl, err), n) →
      (err = none ↔ tbl ≠ []))
    ∧ (∀ (apiKey : String) (startDate endDate city stateCode countryCode : Option String)
      (env : Nat → HttpAttempt) (tbl : List FilteredRow) (err : Option String) (n : Nat),
      fetch_filtered_events apiKey startDate endDate city stateCode countryCode env
        = (.ok (tbl, err), n) →
      (err = none ↔ tbl ≠ [])) :=
  ⟨fun _ _ _ _ _ _ _ h => find_attraction_info_inv h,
   fun _ _ _ _ _ _ _ h => perfRetryLoop_inv h,
   fun _ _ _ _ _ _ _ _ _ _ h => fetch_filtered_events_inv h⟩

/-- C10, witness: the invariant read off at concrete runs of the three
operations — a one-row success, a no-events envelope, and a no-criteria
envelope. -/
theorem c10_witness :
    ((none : Option String) = none ↔ ([attrRowOf "Test Attraction" "123"] : List AttrRow) ≠ [])
    ∧ (some "No events found for this performer." = (none : Option String)
        ↔ ([] : List EventRow) ≠ [])
    ∧ (some "No events found for the given criteria." = (none : Option String)
        ↔ ([] : List FilteredRow) ≠ []) :=
  ⟨c10_error_iff_empty.1 "Test Attraction" "name" "key" (okEnv attrBody)
      [attrRowOf "Test Attraction" "123"] none 1 rfl,
   c10_error_iff_empty.2.1 "aid" "key" 5 (okEnv (.obj [])) [] (some
      "No events found for this performer.") 1 rfl,
   c10_error_iff_empty.2.2 "key" none none none none none (okEnv (.obj [])) [] (some
      "No events found for the given criteria.") 1 rfl⟩

end TM
